import Mathlib

/-!
Verification of the machine reservation and status-transition workflow
(`src/handler/api.ts`): the `ApiHandler` class with its three operations
`handleRequestMachine`, `handleGetMachine`, `handleStartMachine` and the
routing entry point `handle`.

The handler logic is translated directly from `src/handler/api.ts`.
The collaborators it calls (Machine Store, State Cache, Device Gateway,
Identity Gateway) live in modules not present under `src/`
(`src/database/table`, `src/database/cache`, `src/external/smart-machine`,
`src/external/idp`); they are modelled from the spec's collaborator
contracts (spec section 6):
  Store.listMachinesAtLocation(locationId) -> list of records,
  Store.getMachine(id) -> record or absent,
  Store.updateMachineStatus(id, status), Store.updateMachineJobId(id, jobId),
  Cache.get(id) -> record or absent, Cache.put(id, record),
  DeviceGateway.startCycle(id) which may fail, including a distinguishable
  hardware-fault condition.

Every collaborator call that may throw in the TypeScript code is given an
explicit fault flag; the `try`/`catch` structure of the handlers is
translated into explicit branching on those flags. A hardware fault of the
Device Gateway is modelled as the device backend recording status ERROR in
the store before the call throws (spec glossary: a hardware fault is a
device-side failure confirmed by an authoritative status read of ERROR).

Each handler returns an instrumented `Outcome`: the response, the final
store and cache, the trace of records the operation read from the store,
the trace of status writes it performed against the store (with the status
the store held for that id just before the write), and counters of store,
cache and device calls.
-/

/-- Machine status enum from `src/database/schema` (values used by the
workflow; spec section 3). -/
inductive MachineStatus where
  | AVAILABLE
  | AWAITING_DROPOFF
  | RUNNING
  | ERROR
deriving DecidableEq, Repr

/-- MachineStateDocument from `src/database/schema`: one machine record
(spec section 3 data model). -/
structure MachineStateDocument where
  machineId : String
  locationId : String
  status : MachineStatus
  jobId : Option String
deriving DecidableEq, Repr

/-- HttpResponseCode values used by the handlers (spec section 6). -/
inductive HttpResponseCode where
  | OK
  | NOT_FOUND
  | BAD_REQUEST
  | UNAUTHORIZED
  | INTERNAL_SERVER_ERROR
  | HARDWARE_ERROR
deriving DecidableEq, Repr

/-- MachineResponseModel: `{ statusCode, machine? }`. -/
structure MachineResponseModel where
  statusCode : HttpResponseCode
  machine : Option MachineStateDocument
deriving DecidableEq, Repr

/-- Modelled from the spec: the Machine Store's durable state
(`src/database/table` is not under `src/`). The store holds machine
records; listing by location returns them in store order. -/
abbrev Store := List MachineStateDocument

/-- Modelled from the spec: `Store.listMachinesAtLocation(locationId)`
returns the records at that location in store-returned order. -/
def listMachinesAtLocation (s : Store) (locationId : String) :
    List MachineStateDocument :=
  List.filter (fun m => m.locationId == locationId) s

/-- Modelled from the spec: `Store.getMachine(id)` is a point read by
machine id, returning the record or absent. -/
def getMachine (s : Store) (id : String) : Option MachineStateDocument :=
  List.find? (fun m => m.machineId == id) s

/-- Modelled from the spec: `Store.updateMachineStatus(id, status)` is a
narrow field update of the status of the record(s) with that id. -/
def updateMachineStatus (s : Store) (id : String) (st : MachineStatus) :
    Store :=
  List.map (fun m => if m.machineId == id then { m with status := st } else m) s

/-- Modelled from the spec: `Store.updateMachineJobId(id, jobId)` is a
narrow field update of the jobId of the record(s) with that id. -/
def updateMachineJobId (s : Store) (id : String) (jobId : String) : Store :=
  List.map (fun m => if m.machineId == id then { m with jobId := some jobId } else m) s

/-- Modelled from the spec: the State Cache (`src/database/cache` is not
under `src/`), an in-memory map keyed by machine id holding the last-known
record; contract `put(id, record) / get(id) -> record or absent`. -/
abbrev Cache := List (String × MachineStateDocument)

/-- Modelled from the spec: `Cache.get(id)` returns the cached record for
that id, or absent. -/
def cacheGet (c : Cache) (id : String) : Option MachineStateDocument :=
  Option.map Prod.snd (List.find? (fun e => e.1 == id) c)

/-- Modelled from the spec: `Cache.put(id, record)` overwrites the whole
entry for that id with the given record. -/
def cachePut (c : Cache) (id : String) (m : MachineStateDocument) : Cache :=
  (id, m) :: c

/-- Record of one status write the workflow performed against the store:
the target id, the status the store held for that id just before the write
(absent when the store has no record with that id), and the written
status. -/
structure StatusWrite where
  id : String
  oldStatus : Option MachineStatus
  newStatus : MachineStatus
deriving DecidableEq, Repr

/-- Instrumented result of one handler invocation: the HTTP response, the
final store and cache, the successful store reads in order (each record a
listing or point read returned), the status writes performed, and counters
of store calls (reads and writes, attempted ones included), cache gets,
cache puts and Device Gateway calls. -/
structure Outcome where
  resp : MachineResponseModel
  store : Store
  cache : Cache
  reads : List MachineStateDocument
  statusWrites : List StatusWrite
  storeCalls : Nat
  cacheGets : Nat
  cachePuts : Nat
  deviceCalls : Nat
deriving DecidableEq

/-- Outcome with the given response and states and no recorded activity;
branches amend the activity fields. -/
def plainOutcome (resp : MachineResponseModel) (s : Store) (c : Cache) :
    Outcome :=
  { resp := resp, store := s, cache := c, reads := [], statusWrites := [],
    storeCalls := 0, cacheGets := 0, cachePuts := 0, deviceCalls := 0 }

/-- Fault flags for the store calls `handleRequestMachine` makes, one per
throw site, in call order. -/
structure RequestFaults where
  listFault : Bool
  statusWriteFault : Bool
  jobWriteFault : Bool
  rereadFault : Bool
deriving DecidableEq, Repr

/-- Fault flag for the store read `handleGetMachine` makes. -/
structure GetFaults where
  readFault : Bool
deriving DecidableEq, Repr

/-- Modelled from the spec: outcome of the Device Gateway's
`startCycle(id)` call (`src/external/smart-machine` is not under `src/`):
success, a transient failure (the call throws), or a hardware fault (the
device backend records status ERROR for the machine in the store and the
call throws). -/
inductive DeviceOutcome where
  | ok
  | transientFault
  | hardwareFault
deriving DecidableEq, Repr

/-- Fault flags for the calls `handleStartMachine` makes, one per throw
site, in call order: the initial store read, the Device Gateway call, the
RUNNING status write, the post-update re-read, and the two store calls of
the catch block (classification read, ERROR re-assert write). -/
structure StartFaults where
  readFault : Bool
  device : DeviceOutcome
  runWriteFault : Bool
  rereadFault : Bool
  classReadFault : Bool
  classWriteFault : Bool
deriving DecidableEq, Repr

/-- Translation of `handleRequestMachine` (`src/handler/api.ts` lines
49-92): list machines at the location, pick the first AVAILABLE one,
update its status to AWAITING_DROPOFF, assign the job id, re-read, cache
and return the fresh record; NOT_FOUND when no machine is AVAILABLE;
INTERNAL_SERVER_ERROR when the re-read comes back empty or any store call
throws (the catch block). -/
def handleRequestMachine (s : Store) (c : Cache)
    (locationId jobId : String) (f : RequestFaults) : Outcome :=
  if f.listFault then
    { plainOutcome ⟨.INTERNAL_SERVER_ERROR, none⟩ s c with storeCalls := 1 }
  else
    let machines := listMachinesAtLocation s locationId
    match List.find? (fun m => m.status == MachineStatus.AVAILABLE) machines with
    | none =>
        { plainOutcome ⟨.NOT_FOUND, none⟩ s c with
          reads := machines, storeCalls := 1 }
    | some availableMachine =>
        if f.statusWriteFault then
          { plainOutcome ⟨.INTERNAL_SERVER_ERROR, none⟩ s c with
            reads := machines, storeCalls := 2 }
        else
          let w1 : StatusWrite :=
            ⟨availableMachine.machineId,
             Option.map MachineStateDocument.status
               (getMachine s availableMachine.machineId),
             MachineStatus.AWAITING_DROPOFF⟩
          let s1 := updateMachineStatus s availableMachine.machineId
            MachineStatus.AWAITING_DROPOFF
          if f.jobWriteFault then
            { plainOutcome ⟨.INTERNAL_SERVER_ERROR, none⟩ s1 c with
              reads := machines, statusWrites := [w1], storeCalls := 3 }
          else
            let s2 := updateMachineJobId s1 availableMachine.machineId jobId
            if f.rereadFault then
              { plainOutcome ⟨.INTERNAL_SERVER_ERROR, none⟩ s2 c with
                reads := machines, statusWrites := [w1], storeCalls := 4 }
            else
              match getMachine s2 availableMachine.machineId with
              | some updatedMachine =>
                  { resp := ⟨.OK, some updatedMachine⟩, store := s2,
                    cache := cachePut c availableMachine.machineId updatedMachine,
                    reads := machines ++ [updatedMachine],
                    statusWrites := [w1], storeCalls := 4,
                    cacheGets := 0, cachePuts := 1, deviceCalls := 0 }
              | none =>
                  { plainOutcome ⟨.INTERNAL_SERVER_ERROR, none⟩ s2 c with
                    reads := machines, statusWrites := [w1], storeCalls := 4 }

/-- Translation of `handleGetMachine` (`src/handler/api.ts` lines
100-135): return the cached record on a cache hit; otherwise read the
store, NOT_FOUND when absent, else cache and return the record;
INTERNAL_SERVER_ERROR when the store read throws. -/
def handleGetMachine (s : Store) (c : Cache) (machineId : String)
    (f : GetFaults) : Outcome :=
  match cacheGet c machineId with
  | some cachedMachine =>
      { plainOutcome ⟨.OK, some cachedMachine⟩ s c with cacheGets := 1 }
  | none =>
      if f.readFault then
        { plainOutcome ⟨.INTERNAL_SERVER_ERROR, none⟩ s c with
          cacheGets := 1, storeCalls := 1 }
      else
        match getMachine s machineId with
        | none =>
            { plainOutcome ⟨.NOT_FOUND, none⟩ s c with
              cacheGets := 1, storeCalls := 1 }
        | some machine =>
            { resp := ⟨.OK, some machine⟩, store := s,
              cache := cachePut c machineId machine,
              reads := [machine], statusWrites := [],
              storeCalls := 1, cacheGets := 1, cachePuts := 1,
              deviceCalls := 0 }

/-- Translation of the catch block of `handleStartMachine`
(`src/handler/api.ts` lines 187-209), entered when any call of the try
body throws. Its own inner try re-reads the machine; when that read
succeeds and shows status ERROR it re-asserts ERROR in the store, puts the
record in the cache and returns HARDWARE_ERROR with it; a throw of the
inner read or of the re-assert write, an absent machine, or a status other
than ERROR all end in the generic INTERNAL_SERVER_ERROR with no machine.
The arguments carry the store and cache at the time of the throw and the
activity already recorded by the try body. -/
def startMachineCatch (s : Store) (c : Cache) (machineId : String)
    (reads0 : List MachineStateDocument) (writes0 : List StatusWrite)
    (storeCalls0 deviceCalls0 : Nat)
    (classReadFault classWriteFault : Bool) : Outcome :=
  if classReadFault then
    { plainOutcome ⟨.INTERNAL_SERVER_ERROR, none⟩ s c with
      reads := reads0, statusWrites := writes0,
      storeCalls := storeCalls0 + 1, deviceCalls := deviceCalls0 }
  else
    match getMachine s machineId with
    | some machine =>
        if machine.status = MachineStatus.ERROR then
          if classWriteFault then
            { plainOutcome ⟨.INTERNAL_SERVER_ERROR, none⟩ s c with
              reads := reads0 ++ [machine], statusWrites := writes0,
              storeCalls := storeCalls0 + 2, deviceCalls := deviceCalls0 }
          else
            { resp := ⟨.HARDWARE_ERROR, some machine⟩,
              store := updateMachineStatus s machineId MachineStatus.ERROR,
              cache := cachePut c machineId machine,
              reads := reads0 ++ [machine],
              statusWrites := writes0 ++
                [⟨machineId,
                  Option.map MachineStateDocument.status (getMachine s machineId),
                  MachineStatus.ERROR⟩],
              storeCalls := storeCalls0 + 2, cacheGets := 0,
              cachePuts := 1, deviceCalls := deviceCalls0 }
        else
          { plainOutcome ⟨.INTERNAL_SERVER_ERROR, none⟩ s c with
            reads := reads0 ++ [machine], statusWrites := writes0,
            storeCalls := storeCalls0 + 1, deviceCalls := deviceCalls0 }
    | none =>
        { plainOutcome ⟨.INTERNAL_SERVER_ERROR, none⟩ s c with
          reads := reads0, statusWrites := writes0,
          storeCalls := storeCalls0 + 1, deviceCalls := deviceCalls0 }

/-- Translation of `handleStartMachine` (`src/handler/api.ts` lines
144-209): read the machine from the store (bypassing the cache), NOT_FOUND
when absent, BAD_REQUEST with the unmodified record when its status is not
AWAITING_DROPOFF; otherwise call the Device Gateway, update the status to
RUNNING, re-read, cache and return the fresh record (empty re-read gives
INTERNAL_SERVER_ERROR). Any throw in that body enters the fault
classification of `startMachineCatch`; a device hardware fault first
records ERROR for the machine in the store (device backend, not a
workflow write). -/
def handleStartMachine (s : Store) (c : Cache) (machineId : String)
    (f : StartFaults) : Outcome :=
  if f.readFault then
    startMachineCatch s c machineId [] [] 1 0 f.classReadFault f.classWriteFault
  else
    match getMachine s machineId with
    | none =>
        { plainOutcome ⟨.NOT_FOUND, none⟩ s c with storeCalls := 1 }
    | some machine =>
        if machine.status ≠ MachineStatus.AWAITING_DROPOFF then
          { plainOutcome ⟨.BAD_REQUEST, some machine⟩ s c with
            reads := [machine], storeCalls := 1 }
        else
          match f.device with
          | .transientFault =>
              startMachineCatch s c machineId [machine] [] 1 1
                f.classReadFault f.classWriteFault
          | .hardwareFault =>
              startMachineCatch
                (updateMachineStatus s machineId MachineStatus.ERROR) c
                machineId [machine] [] 1 1 f.classReadFault f.classWriteFault
          | .ok =>
              if f.runWriteFault then
                startMachineCatch s c machineId [machine] [] 2 1
                  f.classReadFault f.classWriteFault
              else
                let w1 : StatusWrite :=
                  ⟨machineId,
                   Option.map MachineStateDocument.status (getMachine s machineId),
                   MachineStatus.RUNNING⟩
                let s1 := updateMachineStatus s machineId MachineStatus.RUNNING
                if f.rereadFault then
                  startMachineCatch s1 c machineId [machine] [w1] 3 1
                    f.classReadFault f.classWriteFault
                else
                  match getMachine s1 machineId with
                  | some updatedMachine =>
                      { resp := ⟨.OK, some updatedMachine⟩, store := s1,
                        cache := cachePut c machineId updatedMachine,
                        reads := [machine, updatedMachine],
                        statusWrites := [w1], storeCalls := 3,
                        cacheGets := 0, cachePuts := 1, deviceCalls := 1 }
                  | none =>
                      { plainOutcome ⟨.INTERNAL_SERVER_ERROR, none⟩ s1 c with
                        reads := [machine], statusWrites := [w1],
                        storeCalls := 3, deviceCalls := 1 }

/-- RequestModel from `src/handler/model`: method, path, token, and the
body-derived fields of a reservation request. -/
structure RequestModel where
  method : String
  path : String
  token : String
  locationId : String
  jobId : String
deriving DecidableEq, Repr

/-- Character class of the path regexes in `handle`: `[a-zA-Z0-9-]`. -/
def isIdChar (ch : Char) : Bool :=
  ch.isAlpha || ch.isDigit || ch == '-'

/-- Anchored match of `handle`'s regex `^/machine/([a-zA-Z0-9-]+)$`,
returning the captured id. -/
def matchGetMachinePath (p : String) : Option String :=
  match p.splitOn "/" with
  | ["", "machine", id] =>
      if id ≠ "" ∧ id.all isIdChar then some id else none
  | _ => none

/-- Anchored match of `handle`'s regex `^/machine/([a-zA-Z0-9-]+)/start$`,
returning the captured id. -/
def matchStartMachinePath (p : String) : Option String :=
  match p.splitOn "/" with
  | ["", "machine", id, "start"] =>
      if id ≠ "" ∧ id.all isIdChar then some id else none
  | _ => none

/-- Translation of `handle` (`src/handler/api.ts` lines 217-240) together
with `checkToken` (lines 31-38). `valid` is the Identity Gateway's
`validateToken` (modelled from the spec as a boolean oracle over tokens,
`src/external/idp` not being under `src/`). When the token is invalid,
`checkToken` throws an error carrying statusCode UNAUTHORIZED before any
routing; `handle` does not catch it, so the invocation's outcome is that
authorization failure, modelled as the UNAUTHORIZED response with no
activity. Otherwise the request is routed by method and exact path
pattern; an unmatched combination yields INTERNAL_SERVER_ERROR. -/
def handle (valid : String → Bool) (s : Store) (c : Cache)
    (req : RequestModel) (fr : RequestFaults) (fg : GetFaults)
    (fs : StartFaults) : Outcome :=
  if valid req.token = false then
    plainOutcome ⟨.UNAUTHORIZED, none⟩ s c
  else if req.method = "POST" ∧ req.path = "/machine/request" then
    handleRequestMachine s c req.locationId req.jobId fr
  else
    match matchGetMachinePath req.path with
    | some machineId =>
        if req.method = "GET" then handleGetMachine s c machineId fg
        else
          match matchStartMachinePath req.path with
          | some machineId2 =>
              if req.method = "POST" then handleStartMachine s c machineId2 fs
              else plainOutcome ⟨.INTERNAL_SERVER_ERROR, none⟩ s c
          | none => plainOutcome ⟨.INTERNAL_SERVER_ERROR, none⟩ s c
    | none =>
        match matchStartMachinePath req.path with
        | some machineId =>
            if req.method = "POST" then handleStartMachine s c machineId fs
            else plainOutcome ⟨.INTERNAL_SERVER_ERROR, none⟩ s c
        | none => plainOutcome ⟨.INTERNAL_SERVER_ERROR, none⟩ s c

/-- Most recent record with the given machine id in a read trace. -/
def lastReadFor (rs : List MachineStateDocument) (id : String) :
    Option MachineStateDocument :=
  List.find? (fun m => m.machineId == id) rs.reverse

/-- Status-write legality (spec section 3 invariants): the write never
targets AVAILABLE, and when it changes the stored status at all it follows
one of the workflow's edges AVAILABLE to AWAITING_DROPOFF,
AWAITING_DROPOFF to RUNNING, or AWAITING_DROPOFF to ERROR. -/
def legalWrite (w : StatusWrite) : Prop :=
  w.newStatus ≠ MachineStatus.AVAILABLE ∧
    (w.oldStatus = some w.newStatus ∨
      (w.oldStatus = some MachineStatus.AVAILABLE ∧
        w.newStatus = MachineStatus.AWAITING_DROPOFF) ∨
      (w.oldStatus = some MachineStatus.AWAITING_DROPOFF ∧
        (w.newStatus = MachineStatus.RUNNING ∨
          w.newStatus = MachineStatus.ERROR)))

/-- Cache coherence of one operation (spec section 3 invariants): every
cache entry after the operation is either exactly the entry the cache held
before it, or the most recent record the operation itself read from the
store for that id. -/
def cacheCoherent (pre : Cache) (o : Outcome) : Prop :=
  ∀ id : String, cacheGet o.cache id = cacheGet pre id ∨
    ∃ r : MachineStateDocument,
      cacheGet o.cache id = some r ∧ lastReadFor o.reads id = some r

lemma getMachine_eq_some_machineId {s : Store} {id : String}
    {m : MachineStateDocument} (h : getMachine s id = some m) :
    m.machineId = id := by
  unfold getMachine at h
  have hb := List.find?_some h
  simp only [beq_iff_eq] at hb
  exact hb

lemma getMachine_map_pres (g : MachineStateDocument → MachineStateDocument)
    (hg : ∀ m, (g m).machineId = m.machineId) (s : Store) (id : String) :
    getMachine (List.map g s) id = Option.map g (getMachine s id) := by
  induction s with
  | nil => rfl
  | cons a t ih =>
      unfold getMachine at *
      cases h : (a.machineId == id) with
      | true =>
          have h1 : ((g a).machineId == id) = true := by rw [hg a]; exact h
          rw [List.map_cons, List.find?_cons_of_pos t (by exact h),
            List.find?_cons_of_pos (List.map g t) (by exact h1)]
          rfl
      | false =>
          have h1 : ((g a).machineId == id) = false := by rw [hg a]; exact h
          rw [List.map_cons,
            List.find?_cons_of_neg t (by simp [h]),
            List.find?_cons_of_neg (List.map g t) (by simp [h1])]
          exact ih

lemma getMachine_updateMachineStatus (s : Store) (id : String)
    (st : MachineStatus) {m : MachineStateDocument}
    (hm : getMachine s id = some m) :
    getMachine (updateMachineStatus s id st) id = some { m with status := st } := by
  unfold updateMachineStatus
  rw [getMachine_map_pres _ (fun m' => by by_cases h : (m'.machineId == id) = true <;>
    simp [h]) s id, hm]
  have hid : m.machineId = id := getMachine_eq_some_machineId hm
  simp [hid]

lemma getMachine_updateMachineJobId (s : Store) (id : String)
    (jobId : String) {m : MachineStateDocument}
    (hm : getMachine s id = some m) :
    getMachine (updateMachineJobId s id jobId) id =
      some { m with jobId := some jobId } := by
  unfold updateMachineJobId
  rw [getMachine_map_pres _ (fun m' => by by_cases h : (m'.machineId == id) = true <;>
    simp [h]) s id, hm]
  have hid : m.machineId = id := getMachine_eq_some_machineId hm
  simp [hid]

lemma getMachine_of_mem_nodup {s : Store} {a : MachineStateDocument}
    (ha : a ∈ s)
    (hnd : (List.map MachineStateDocument.machineId s).Nodup) :
    getMachine s a.machineId = some a := by
  induction s with
  | nil => cases ha
  | cons b t ih =>
      rw [List.map_cons, List.nodup_cons] at hnd
      rcases List.mem_cons.mp ha with h | h
      · subst h
        unfold getMachine
        exact List.find?_cons_of_pos t (by simp)
      · have hne : b.machineId ≠ a.machineId := by
          intro he
          exact hnd.1 (he ▸ List.mem_map_of_mem MachineStateDocument.machineId h)
        unfold getMachine
        rw [List.find?_cons_of_neg t (by simp [hne])]
        exact ih h hnd.2

lemma cacheGet_put_self (c : Cache) (id : String) (m : MachineStateDocument) :
    cacheGet (cachePut c id m) id = some m := by
  unfold cacheGet cachePut
  rw [List.find?_cons_of_pos c (by simp)]
  rfl

lemma cacheGet_put_ne (c : Cache) (id : String) (m : MachineStateDocument)
    (id' : String) (h : id' ≠ id) :
    cacheGet (cachePut c id m) id' = cacheGet c id' := by
  unfold cacheGet cachePut
  have hne : ¬ (((id, m).1 == id') = true) := by
    simp only [beq_iff_eq]
    exact fun he => h he.symm
  rw [List.find?_cons_of_neg c hne]

lemma lastReadFor_append_self (rs : List MachineStateDocument)
    (m : MachineStateDocument) (id : String) (h : m.machineId = id) :
    lastReadFor (rs ++ [m]) id = some m := by
  unfold lastReadFor
  rw [List.reverse_append]
  simp only [List.reverse_cons, List.reverse_nil, List.nil_append,
    List.singleton_append]
  exact List.find?_cons_of_pos rs.reverse (by simp [h])

lemma cacheCoherent_of_eq (pre : Cache) (o : Outcome) (h : o.cache = pre) :
    cacheCoherent pre o :=
  fun id => Or.inl (by rw [h])

lemma cacheCoherent_of_put (pre : Cache) (o : Outcome) (pid : String)
    (m : MachineStateDocument) (hc : o.cache = cachePut pre pid m)
    (hid : m.machineId = pid) (hr : lastReadFor o.reads pid = some m) :
    cacheCoherent pre o := by
  intro id
  by_cases h : id = pid
  · subst h
    exact Or.inr ⟨m, by rw [hc]; exact cacheGet_put_self pre id m, hr⟩
  · exact Or.inl (by rw [hc]; exact cacheGet_put_ne pre pid m id h)

lemma startMachineCatch_spec (s : Store) (c : Cache) (id : String)
    (reads0 : List MachineStateDocument) (writes0 : List StatusWrite)
    (n d : Nat) (crf cwf : Bool) :
    (crf = true →
      (startMachineCatch s c id reads0 writes0 n d crf cwf).resp =
        ⟨HttpResponseCode.INTERNAL_SERVER_ERROR, none⟩) ∧
    (crf = false →
      (getMachine s id = none →
        (startMachineCatch s c id reads0 writes0 n d crf cwf).resp =
          ⟨HttpResponseCode.INTERNAL_SERVER_ERROR, none⟩) ∧
      ∀ mr : MachineStateDocument, getMachine s id = some mr →
        (mr.status = MachineStatus.ERROR → cwf = false →
          (startMachineCatch s c id reads0 writes0 n d crf cwf).resp =
            ⟨HttpResponseCode.HARDWARE_ERROR, some mr⟩ ∧
          cacheGet (startMachineCatch s c id reads0 writes0 n d crf cwf).cache
            id = some mr) ∧
        (mr.status = MachineStatus.ERROR → cwf = true →
          (startMachineCatch s c id reads0 writes0 n d crf cwf).resp =
            ⟨HttpResponseCode.INTERNAL_SERVER_ERROR, none⟩) ∧
        (mr.status ≠ MachineStatus.ERROR →
          (startMachineCatch s c id reads0 writes0 n d crf cwf).resp =
            ⟨HttpResponseCode.INTERNAL_SERVER_ERROR, none⟩)) := by
  constructor
  · intro h
    simp [startMachineCatch, plainOutcome, h]
  · intro h
    constructor
    · intro hn
      simp [startMachineCatch, plainOutcome, h, hn]
    · intro mr hmr
      refine ⟨?_, ?_, ?_⟩
      · intro he hw
        simp [startMachineCatch, plainOutcome, h, hmr, he, hw, cacheGet_put_self]
      · intro he hw
        simp [startMachineCatch, plainOutcome, h, hmr, he, hw]
      · intro he
        simp [startMachineCatch, plainOutcome, h, hmr, he]

lemma startMachineCatch_cacheCoherent (s : Store) (c : Cache) (id : String)
    (reads0 : List MachineStateDocument) (writes0 : List StatusWrite)
    (n d : Nat) (crf cwf : Bool) :
    cacheCoherent c (startMachineCatch s c id reads0 writes0 n d crf cwf) := by
  unfold startMachineCatch
  split
  · exact cacheCoherent_of_eq _ _ rfl
  · split
    · rename_i machine heq
      split
      · split
        · exact cacheCoherent_of_eq _ _ rfl
        · exact cacheCoherent_of_put c _ id machine rfl
            (getMachine_eq_some_machineId heq)
            (lastReadFor_append_self reads0 machine id
              (getMachine_eq_some_machineId heq))
      · exact cacheCoherent_of_eq _ _ rfl
    · exact cacheCoherent_of_eq _ _ rfl

lemma startMachineCatch_writes_legal (s : Store) (c : Cache) (id : String)
    (reads0 : List MachineStateDocument) (writes0 : List StatusWrite)
    (n d : Nat) (crf cwf : Bool)
    (h0 : ∀ w ∈ writes0, legalWrite w) :
    ∀ w ∈ (startMachineCatch s c id reads0 writes0 n d crf cwf).statusWrites,
      legalWrite w := by
  unfold startMachineCatch
  split
  · exact h0
  · split
    · rename_i machine heq
      split
      · rename_i hstatus
        split
        · exact h0
        · intro w hw
          rcases List.mem_append.mp hw with hl | hr
          · exact h0 w hl
          · have hw1 := List.mem_singleton.mp hr
            subst hw1
            refine ⟨by simp, Or.inl ?_⟩
            rw [heq]
            simp [hstatus]
      · exact h0
    · exact h0

/-- Claim C1: for every location whose store listing contains at least one
machine with status AVAILABLE (machine ids being unique, and the store
calls fault-free), RequestMachine returns OK with the first such machine
in store-returned order, the returned record has status AWAITING_DROPOFF
and the requested jobId, and the Cache afterwards maps that machine's id
to that exact record. -/
theorem requestMachine_reserves_first_available
    (s : Store) (c : Cache) (locationId jobId : String)
    (a : MachineStateDocument)
    (hnd : (List.map MachineStateDocument.machineId s).Nodup)
    (ha : List.find? (fun m => m.status == MachineStatus.AVAILABLE)
        (listMachinesAtLocation s locationId) = some a) :
    (handleRequestMachine s c locationId jobId ⟨false, false, false, false⟩).resp =
      ⟨HttpResponseCode.OK,
        some ⟨a.machineId, a.locationId, MachineStatus.AWAITING_DROPOFF,
          some jobId⟩⟩ ∧
    cacheGet (handleRequestMachine s c locationId jobId
        ⟨false, false, false, false⟩).cache a.machineId =
      some ⟨a.machineId, a.locationId, MachineStatus.AWAITING_DROPOFF,
        some jobId⟩ := by
  have hmem0 : a ∈ listMachinesAtLocation s locationId :=
    List.mem_of_find?_eq_some ha
  have hmem : a ∈ s := by
    unfold listMachinesAtLocation at hmem0
    exact (List.mem_filter.mp hmem0).1
  have hget : getMachine s a.machineId = some a :=
    getMachine_of_mem_nodup hmem hnd
  have h1 := getMachine_updateMachineStatus s a.machineId
    MachineStatus.AWAITING_DROPOFF hget
  have h2 := getMachine_updateMachineJobId
    (updateMachineStatus s a.machineId MachineStatus.AWAITING_DROPOFF)
    a.machineId jobId h1
  simp [handleRequestMachine, ha, h2, cacheGet_put_self]

/-- Claim C1 witness: a one-machine store at location L1. -/
theorem requestMachine_reserves_first_available_witness :
    (List.map MachineStateDocument.machineId
      [⟨"m1", "L1", MachineStatus.AVAILABLE, none⟩]).Nodup ∧
    List.find? (fun m => m.status == MachineStatus.AVAILABLE)
      (listMachinesAtLocation
        [⟨"m1", "L1", MachineStatus.AVAILABLE, none⟩] "L1") =
      some ⟨"m1", "L1", MachineStatus.AVAILABLE, none⟩ ∧
    ((handleRequestMachine [⟨"m1", "L1", MachineStatus.AVAILABLE, none⟩] []
        "L1" "J1" ⟨false, false, false, false⟩).resp =
      ⟨HttpResponseCode.OK,
        some ⟨"m1", "L1", MachineStatus.AWAITING_DROPOFF, some "J1"⟩⟩ ∧
    cacheGet (handleRequestMachine
        [⟨"m1", "L1", MachineStatus.AVAILABLE, none⟩] [] "L1" "J1"
        ⟨false, false, false, false⟩).cache "m1" =
      some ⟨"m1", "L1", MachineStatus.AWAITING_DROPOFF, some "J1"⟩) :=
  ⟨by decide, by decide,
    requestMachine_reserves_first_available
      [⟨"m1", "L1", MachineStatus.AVAILABLE, none⟩] [] "L1" "J1"
      ⟨"m1", "L1", MachineStatus.AVAILABLE, none⟩ (by decide) (by decide)⟩

/-- Claim C7: for every StartMachine whose store read returns a machine
with status other than AWAITING_DROPOFF, the result is BAD_REQUEST
carrying that unmodified record, the Device Gateway is never invoked, and
neither the Store nor the Cache is mutated. -/
theorem startMachine_wrong_status_bad_request
    (s : Store) (c : Cache) (machineId : String) (f : StartFaults)
    (m : MachineStateDocument)
    (hr : f.readFault = false)
    (hm : getMachine s machineId = some m)
    (hst : m.status ≠ MachineStatus.AWAITING_DROPOFF) :
    handleStartMachine s c machineId f =
      { plainOutcome ⟨HttpResponseCode.BAD_REQUEST, some m⟩ s c with
        reads := [m], storeCalls := 1 } ∧
    (handleStartMachine s c machineId f).deviceCalls = 0 ∧
    (handleStartMachine s c machineId f).store = s ∧
    (handleStartMachine s c machineId f).cache = c ∧
    (handleStartMachine s c machineId f).statusWrites = [] ∧
    (handleStartMachine s c machineId f).cachePuts = 0 := by
  have he : handleStartMachine s c machineId f =
      { plainOutcome ⟨HttpResponseCode.BAD_REQUEST, some m⟩ s c with
        reads := [m], storeCalls := 1 } := by
    simp [handleStartMachine, hr, hm, hst]
  rw [he]
  exact ⟨rfl, rfl, rfl, rfl, rfl, rfl⟩

/-- Claim C7 witness: a RUNNING machine rejects the start. -/
theorem startMachine_wrong_status_bad_request_witness :
    (⟨false, DeviceOutcome.ok, false, false, false, false⟩ :
      StartFaults).readFault = false ∧
    getMachine [⟨"m1", "L1", MachineStatus.RUNNING, some "J1"⟩] "m1" =
      some ⟨"m1", "L1", MachineStatus.RUNNING, some "J1"⟩ ∧
    (⟨"m1", "L1", MachineStatus.RUNNING, some "J1"⟩ :
      MachineStateDocument).status ≠ MachineStatus.AWAITING_DROPOFF ∧
    handleStartMachine [⟨"m1", "L1", MachineStatus.RUNNING, some "J1"⟩] []
        "m1" ⟨false, DeviceOutcome.ok, false, false, false, false⟩ =
      { plainOutcome
          ⟨HttpResponseCode.BAD_REQUEST,
            some ⟨"m1", "L1", MachineStatus.RUNNING, some "J1"⟩⟩
          [⟨"m1", "L1", MachineStatus.RUNNING, some "J1"⟩] [] with
        reads := [⟨"m1", "L1", MachineStatus.RUNNING, some "J1"⟩],
        storeCalls := 1 } :=
  ⟨by decide, by decide, by decide,
    (startMachine_wrong_status_bad_request
      [⟨"m1", "L1", MachineStatus.RUNNING, some "J1"⟩] [] "m1"
      ⟨false, DeviceOutcome.ok, false, false, false, false⟩
      ⟨"m1", "L1", MachineStatus.RUNNING, some "J1"⟩
      (by decide) (by decide) (by decide)).1⟩

/-- Claim C8: for every inbound request whose token the Identity Gateway
rejects, regardless of method and path, the handler yields an UNAUTHORIZED
outcome (the error `checkToken` throws before any routing) with zero
Store, Cache and Device Gateway calls and no state change. -/
theorem invalid_token_unauthorized
    (valid : String → Bool) (s : Store) (c : Cache) (req : RequestModel)
    (fr : RequestFaults) (fg : GetFaults) (fs : StartFaults)
    (h : valid req.token = false) :
    handle valid s c req fr fg fs =
      plainOutcome ⟨HttpResponseCode.UNAUTHORIZED, none⟩ s c ∧
    (handle valid s c req fr fg fs).resp.statusCode =
      HttpResponseCode.UNAUTHORIZED ∧
    (handle valid s c req fr fg fs).storeCalls = 0 ∧
    (handle valid s c req fr fg fs).cacheGets = 0 ∧
    (handle valid s c req fr fg fs).cachePuts = 0 ∧
    (handle valid s c req fr fg fs).deviceCalls = 0 ∧
    (handle valid s c req fr fg fs).store = s ∧
    (handle valid s c req fr fg fs).cache = c := by
  have he : handle valid s c req fr fg fs =
      plainOutcome ⟨HttpResponseCode.UNAUTHORIZED, none⟩ s c := by
    simp [handle, h]
  rw [he]
  exact ⟨rfl, rfl, rfl, rfl, rfl, rfl, rfl, rfl⟩

/-- Claim C8 witness: an always-rejecting Identity Gateway on a
RequestMachine call. -/
theorem invalid_token_unauthorized_witness :
    (fun _ : String => false) "secret" = false ∧
    handle (fun _ => false) [⟨"m1", "L1", MachineStatus.AVAILABLE, none⟩] []
        ⟨"POST", "/machine/request", "secret", "L1", "J1"⟩
        ⟨false, false, false, false⟩ ⟨false⟩
        ⟨false, DeviceOutcome.ok, false, false, false, false⟩ =
      plainOutcome ⟨HttpResponseCode.UNAUTHORIZED, none⟩
        [⟨"m1", "L1", MachineStatus.AVAILABLE, none⟩] [] :=
  ⟨rfl,
    (invalid_token_unauthorized (fun _ => false)
      [⟨"m1", "L1", MachineStatus.AVAILABLE, none⟩] []
      ⟨"POST", "/machine/request", "secret", "L1", "J1"⟩
      ⟨false, false, false, false⟩ ⟨false⟩
      ⟨false, DeviceOutcome.ok, false, false, false, false⟩ rfl).1⟩

/-- Claim C9: for every location whose (fault-free) store listing contains
no machine with status AVAILABLE, RequestMachine returns NOT_FOUND with no
machine payload, performs no Store mutation and writes nothing to the
Cache. -/
theorem requestMachine_no_available_not_found
    (s : Store) (c : Cache) (locationId jobId : String) (f : RequestFaults)
    (hl : f.listFault = false)
    (h : ∀ m ∈ listMachinesAtLocation s locationId,
      m.status ≠ MachineStatus.AVAILABLE) :
    (handleRequestMachine s c locationId jobId f).resp =
      ⟨HttpResponseCode.NOT_FOUND, none⟩ ∧
    (handleRequestMachine s c locationId jobId f).store = s ∧
    (handleRequestMachine s c locationId jobId f).cache = c ∧
    (handleRequestMachine s c locationId jobId f).statusWrites = [] ∧
    (handleRequestMachine s c locationId jobId f).cachePuts = 0 := by
  have hfind : List.find? (fun m => m.status == MachineStatus.AVAILABLE)
      (listMachinesAtLocation s locationId) = none := by
    rw [List.find?_eq_none]
    intro x hx
    simp only [beq_iff_eq]
    exact h x hx
  have he : handleRequestMachine s c locationId jobId f =
      { plainOutcome ⟨HttpResponseCode.NOT_FOUND, none⟩ s c with
        reads := listMachinesAtLocation s locationId, storeCalls := 1 } := by
    simp [handleRequestMachine, hl, hfind]
  rw [he]
  exact ⟨rfl, rfl, rfl, rfl, rfl⟩

/-- Claim C9 witness: a location with one RUNNING machine only. -/
theorem requestMachine_no_available_not_found_witness :
    (⟨false, false, false, false⟩ : RequestFaults).listFault = false ∧
    (∀ m ∈ listMachinesAtLocation
        [⟨"m1", "L1", MachineStatus.RUNNING, some "J0"⟩] "L1",
      m.status ≠ MachineStatus.AVAILABLE) ∧
    (handleRequestMachine [⟨"m1", "L1", MachineStatus.RUNNING, some "J0"⟩]
        [] "L1" "J1" ⟨false, false, false, false⟩).resp =
      ⟨HttpResponseCode.NOT_FOUND, none⟩ :=
  ⟨by decide, by decide,
    (requestMachine_no_available_not_found
      [⟨"m1", "L1", MachineStatus.RUNNING, some "J0"⟩] [] "L1" "J1"
      ⟨false, false, false, false⟩ (by decide) (by decide)).1⟩

/-- Claim C10: there is an input on which StartMachine returns
HARDWARE_ERROR without ever invoking the Device Gateway: the catch block
covers the whole operation body, so when the initial store read faults and
the classification re-read then succeeds showing status ERROR, the result
is HARDWARE_ERROR carrying that record with zero start-cycle calls. -/
theorem startMachine_hardware_error_without_device_call :
    (handleStartMachine [⟨"m1", "L1", MachineStatus.ERROR, none⟩] [] "m1"
        ⟨true, DeviceOutcome.ok, false, false, false, false⟩).resp =
      ⟨HttpResponseCode.HARDWARE_ERROR,
        some ⟨"m1", "L1", MachineStatus.ERROR, none⟩⟩ ∧
    (handleStartMachine [⟨"m1", "L1", MachineStatus.ERROR, none⟩] [] "m1"
        ⟨true, DeviceOutcome.ok, false, false, false, false⟩).deviceCalls =
      0 := by
  decide

/-- Claim C5: for every StartMachine where the store read returns a
machine in status AWAITING_DROPOFF and the Device Gateway start-cycle call
succeeds (main-path store calls fault-free), the machine's status becomes
RUNNING in the Store, the re-read record is written to the Cache, and the
result is OK with that record; and whenever the post-update re-read
returns nothing, the result is INTERNAL_SERVER_ERROR with no payload (a
branch that is vacuous here because the embedded store loses no record
between the update and the re-read). -/
theorem startMachine_success_running
    (s : Store) (c : Cache) (machineId : String)
    (m : MachineStateDocument) (crf cwf : Bool)
    (hm : getMachine s machineId = some m)
    (hst : m.status = MachineStatus.AWAITING_DROPOFF) :
    (handleStartMachine s c machineId
        ⟨false, DeviceOutcome.ok, false, false, crf, cwf⟩).resp =
      ⟨HttpResponseCode.OK,
        some ⟨m.machineId, m.locationId, MachineStatus.RUNNING, m.jobId⟩⟩ ∧
    getMachine (handleStartMachine s c machineId
        ⟨false, DeviceOutcome.ok, false, false, crf, cwf⟩).store machineId =
      some ⟨m.machineId, m.locationId, MachineStatus.RUNNING, m.jobId⟩ ∧
    cacheGet (handleStartMachine s c machineId
        ⟨false, DeviceOutcome.ok, false, false, crf, cwf⟩).cache machineId =
      some ⟨m.machineId, m.locationId, MachineStatus.RUNNING, m.jobId⟩ ∧
    (getMachine (updateMachineStatus s machineId MachineStatus.RUNNING)
        machineId = none →
      (handleStartMachine s c machineId
          ⟨false, DeviceOutcome.ok, false, false, crf, cwf⟩).resp =
        ⟨HttpResponseCode.INTERNAL_SERVER_ERROR, none⟩) := by
  have hu := getMachine_updateMachineStatus s machineId
    MachineStatus.RUNNING hm
  simp [handleStartMachine, hm, hst, hu, cacheGet_put_self]

/-- Claim C5 witness: the reserved machine m1 started with a healthy
device. -/
theorem startMachine_success_running_witness :
    getMachine [⟨"m1", "L1", MachineStatus.AWAITING_DROPOFF, some "J1"⟩]
      "m1" = some ⟨"m1", "L1", MachineStatus.AWAITING_DROPOFF, some "J1"⟩ ∧
    (⟨"m1", "L1", MachineStatus.AWAITING_DROPOFF, some "J1"⟩ :
      MachineStateDocument).status = MachineStatus.AWAITING_DROPOFF ∧
    ((handleStartMachine
        [⟨"m1", "L1", MachineStatus.AWAITING_DROPOFF, some "J1"⟩] [] "m1"
        ⟨false, DeviceOutcome.ok, false, false, false, false⟩).resp =
      ⟨HttpResponseCode.OK,
        some ⟨"m1", "L1", MachineStatus.RUNNING, some "J1"⟩⟩ ∧
    cacheGet (handleStartMachine
        [⟨"m1", "L1", MachineStatus.AWAITING_DROPOFF, some "J1"⟩] [] "m1"
        ⟨false, DeviceOutcome.ok, false, false, false, false⟩).cache "m1" =
      some ⟨"m1", "L1", MachineStatus.RUNNING, some "J1"⟩) :=
  ⟨by decide, by decide,
    (startMachine_success_running
        [⟨"m1", "L1", MachineStatus.AWAITING_DROPOFF, some "J1"⟩] [] "m1"
        ⟨"m1", "L1", MachineStatus.AWAITING_DROPOFF, some "J1"⟩ false false
        (by decide) (by decide)).1,
    (startMachine_success_running
        [⟨"m1", "L1", MachineStatus.AWAITING_DROPOFF, some "J1"⟩] [] "m1"
        ⟨"m1", "L1", MachineStatus.AWAITING_DROPOFF, some "J1"⟩ false false
        (by decide) (by decide)).2.2.1⟩

/-- Claim C6: for every GetMachine, a cache hit returns OK with the cached
record and performs no store call and no mutation of Cache or Store; a
cache miss that exists in the (fault-free) Store writes that exact store
record to the Cache and returns it with OK; a cache miss absent from the
Store yields NOT_FOUND with no cache write. -/
theorem getMachine_cache_aside
    (s : Store) (c : Cache) (machineId : String) (f : GetFaults) :
    (∀ r : MachineStateDocument, cacheGet c machineId = some r →
      handleGetMachine s c machineId f =
        { plainOutcome ⟨HttpResponseCode.OK, some r⟩ s c with
          cacheGets := 1 }) ∧
    (cacheGet c machineId = none → f.readFault = false →
      (∀ m : MachineStateDocument, getMachine s machineId = some m →
        (handleGetMachine s c machineId f).resp =
          ⟨HttpResponseCode.OK, some m⟩ ∧
        (handleGetMachine s c machineId f).cache = cachePut c machineId m ∧
        cacheGet (handleGetMachine s c machineId f).cache machineId =
          some m ∧
        (handleGetMachine s c machineId f).store = s) ∧
      (getMachine s machineId = none →
        (handleGetMachine s c machineId f).resp =
          ⟨HttpResponseCode.NOT_FOUND, none⟩ ∧
        (handleGetMachine s c machineId f).cache = c ∧
        (handleGetMachine s c machineId f).store = s ∧
        (handleGetMachine s c machineId f).cachePuts = 0)) := by
  refine ⟨?_, ?_⟩
  · intro r hr
    simp [handleGetMachine, hr]
  · intro hc hf
    refine ⟨?_, ?_⟩
    · intro m hm
      simp [handleGetMachine, hc, hf, hm, cacheGet_put_self]
    · intro hm
      simp [handleGetMachine, plainOutcome, hc, hf, hm]

/-- Claim C6 witness: a cache miss on m1 that exists in the store. -/
theorem getMachine_cache_aside_witness :
    cacheGet ([] : Cache) "m1" = none ∧
    (⟨false⟩ : GetFaults).readFault = false ∧
    getMachine [⟨"m1", "L1", MachineStatus.AVAILABLE, none⟩] "m1" =
      some ⟨"m1", "L1", MachineStatus.AVAILABLE, none⟩ ∧
    (handleGetMachine [⟨"m1", "L1", MachineStatus.AVAILABLE, none⟩] []
        "m1" ⟨false⟩).resp =
      ⟨HttpResponseCode.OK,
        some ⟨"m1", "L1", MachineStatus.AVAILABLE, none⟩⟩ :=
  ⟨rfl, rfl, by decide,
    (((getMachine_cache_aside [⟨"m1", "L1", MachineStatus.AVAILABLE, none⟩]
        [] "m1" ⟨false⟩).2 rfl rfl).1
      ⟨"m1", "L1", MachineStatus.AVAILABLE, none⟩ (by decide)).1⟩

/-- Claim C2 counterexample: machine m1 is found in AWAITING_DROPOFF, the
Device Gateway faults with a hardware fault, the classification re-read
succeeds and shows status ERROR (it is the last record the operation read
from the store), yet because the ERROR re-assert write itself faults the
code returns INTERNAL_SERVER_ERROR with no payload and writes nothing to
the cache — not the HARDWARE_ERROR with cached record that the claim
requires for every successful ERROR-showing re-read. -/
theorem startMachine_error_reassert_fault_counterexample :
    getMachine [⟨"m1", "L1", MachineStatus.AWAITING_DROPOFF, some "J1"⟩]
      "m1" = some ⟨"m1", "L1", MachineStatus.AWAITING_DROPOFF, some "J1"⟩ ∧
    lastReadFor (handleStartMachine
        [⟨"m1", "L1", MachineStatus.AWAITING_DROPOFF, some "J1"⟩] [] "m1"
        ⟨false, DeviceOutcome.hardwareFault, false, false, false, true⟩).reads
      "m1" = some ⟨"m1", "L1", MachineStatus.ERROR, some "J1"⟩ ∧
    (handleStartMachine
        [⟨"m1", "L1", MachineStatus.AWAITING_DROPOFF, some "J1"⟩] [] "m1"
        ⟨false, DeviceOutcome.hardwareFault, false, false, false, true⟩).resp =
      ⟨HttpResponseCode.INTERNAL_SERVER_ERROR, none⟩ ∧
    cacheGet (handleStartMachine
        [⟨"m1", "L1", MachineStatus.AWAITING_DROPOFF, some "J1"⟩] [] "m1"
        ⟨false, DeviceOutcome.hardwareFault, false, false, false, true⟩).cache
      "m1" = none := by
  decide

/-- Claim C2 (amended): for every StartMachine whose main sequence faults
after the machine was found in AWAITING_DROPOFF (Device Gateway failure or
RUNNING-status-update failure): if the classification re-read succeeds,
shows status ERROR and the ERROR re-assert write also succeeds, the result
is HARDWARE_ERROR carrying that record and the Cache holds it; in every
other outcome of the failure path (classification read faults, machine
absent, status not ERROR, or the re-assert write faults) the result is
INTERNAL_SERVER_ERROR with no machine payload. The store the
classification reads is the store at fault time: after a device hardware
fault it already records ERROR for the machine. -/
theorem startMachine_fault_classification
    (s : Store) (c : Cache) (machineId : String) (f : StartFaults)
    (m : MachineStateDocument)
    (hr : f.readFault = false)
    (hm : getMachine s machineId = some m)
    (hst : m.status = MachineStatus.AWAITING_DROPOFF)
    (hf : f.device ≠ DeviceOutcome.ok ∨ f.runWriteFault = true) :
    (f.classReadFault = true →
      (handleStartMachine s c machineId f).resp =
        ⟨HttpResponseCode.INTERNAL_SERVER_ERROR, none⟩) ∧
    (f.classReadFault = false →
      (getMachine (if f.device = DeviceOutcome.hardwareFault then
          updateMachineStatus s machineId MachineStatus.ERROR else s)
          machineId = none →
        (handleStartMachine s c machineId f).resp =
          ⟨HttpResponseCode.INTERNAL_SERVER_ERROR, none⟩) ∧
      ∀ mr : MachineStateDocument,
        getMachine (if f.device = DeviceOutcome.hardwareFault then
          updateMachineStatus s machineId MachineStatus.ERROR else s)
          machineId = some mr →
        (mr.status = MachineStatus.ERROR → f.classWriteFault = false →
          (handleStartMachine s c machineId f).resp =
            ⟨HttpResponseCode.HARDWARE_ERROR, some mr⟩ ∧
          cacheGet (handleStartMachine s c machineId f).cache machineId =
            some mr) ∧
        (mr.status = MachineStatus.ERROR → f.classWriteFault = true →
          (handleStartMachine s c machineId f).resp =
            ⟨HttpResponseCode.INTERNAL_SERVER_ERROR, none⟩) ∧
        (mr.status ≠ MachineStatus.ERROR →
          (handleStartMachine s c machineId f).resp =
            ⟨HttpResponseCode.INTERNAL_SERVER_ERROR, none⟩)) := by
  cases hdev : f.device with
  | ok =>
      have hw : f.runWriteFault = true :=
        hf.resolve_left (by simp [hdev])
      have he : handleStartMachine s c machineId f =
          startMachineCatch s c machineId [m] [] 2 1
            f.classReadFault f.classWriteFault := by
        simp [handleStartMachine, hr, hm, hst, hdev, hw]
      rw [he]
      simpa [hdev] using startMachineCatch_spec s c machineId [m] [] 2 1
        f.classReadFault f.classWriteFault
  | transientFault =>
      have he : handleStartMachine s c machineId f =
          startMachineCatch s c machineId [m] [] 1 1
            f.classReadFault f.classWriteFault := by
        simp [handleStartMachine, hr, hm, hst, hdev]
      rw [he]
      simpa [hdev] using startMachineCatch_spec s c machineId [m] [] 1 1
        f.classReadFault f.classWriteFault
  | hardwareFault =>
      have he : handleStartMachine s c machineId f =
          startMachineCatch
            (updateMachineStatus s machineId MachineStatus.ERROR) c
            machineId [m] [] 1 1 f.classReadFault f.classWriteFault := by
        simp [handleStartMachine, hr, hm, hst, hdev]
      rw [he]
      simpa [hdev] using startMachineCatch_spec
        (updateMachineStatus s machineId MachineStatus.ERROR) c machineId
        [m] [] 1 1 f.classReadFault f.classWriteFault

/-- Claim C2 witness: hardware fault on m1 with a fault-free
classification path yields HARDWARE_ERROR and the cached ERROR record. -/
theorem startMachine_fault_classification_witness :
    (handleStartMachine
        [⟨"m1", "L1", MachineStatus.AWAITING_DROPOFF, some "J1"⟩] [] "m1"
        ⟨false, DeviceOutcome.hardwareFault, false, false, false, false⟩).resp =
      ⟨HttpResponseCode.HARDWARE_ERROR,
        some ⟨"m1", "L1", MachineStatus.ERROR, some "J1"⟩⟩ ∧
    cacheGet (handleStartMachine
        [⟨"m1", "L1", MachineStatus.AWAITING_DROPOFF, some "J1"⟩] [] "m1"
        ⟨false, DeviceOutcome.hardwareFault, false, false, false, false⟩).cache
      "m1" = some ⟨"m1", "L1", MachineStatus.ERROR, some "J1"⟩ :=
  (((startMachine_fault_classification
      [⟨"m1", "L1", MachineStatus.AWAITING_DROPOFF, some "J1"⟩] [] "m1"
      ⟨false, DeviceOutcome.hardwareFault, false, false, false, false⟩
      ⟨"m1", "L1", MachineStatus.AWAITING_DROPOFF, some "J1"⟩
      rfl (by decide) rfl (Or.inl (by decide))).2 rfl).2
    ⟨"m1", "L1", MachineStatus.ERROR, some "J1"⟩ (by decide)).1 rfl rfl


lemma handleRequestMachine_eq_listFault (s : Store) (c : Cache)
    (locationId jobId : String) (f : RequestFaults)
    (h : f.listFault = true) :
    handleRequestMachine s c locationId jobId f =
      { plainOutcome ⟨HttpResponseCode.INTERNAL_SERVER_ERROR, none⟩ s c with
        storeCalls := 1 } := by
  simp [handleRequestMachine, h]

lemma handleRequestMachine_eq_notFound (s : Store) (c : Cache)
    (locationId jobId : String) (f : RequestFaults)
    (h1 : f.listFault = false)
    (h2 : List.find? (fun m => m.status == MachineStatus.AVAILABLE)
      (listMachinesAtLocation s locationId) = none) :
    handleRequestMachine s c locationId jobId f =
      { plainOutcome ⟨HttpResponseCode.NOT_FOUND, none⟩ s c with
        reads := listMachinesAtLocation s locationId, storeCalls := 1 } := by
  simp [handleRequestMachine, h1, h2]

lemma handleRequestMachine_eq_statusWriteFault (s : Store) (c : Cache)
    (locationId jobId : String) (f : RequestFaults)
    (a : MachineStateDocument)
    (h1 : f.listFault = false)
    (h2 : List.find? (fun m => m.status == MachineStatus.AVAILABLE)
      (listMachinesAtLocation s locationId) = some a)
    (h3 : f.statusWriteFault = true) :
    handleRequestMachine s c locationId jobId f =
      { plainOutcome ⟨HttpResponseCode.INTERNAL_SERVER_ERROR, none⟩ s c with
        reads := listMachinesAtLocation s locationId, storeCalls := 2 } := by
  simp [handleRequestMachine, h1, h2, h3]

lemma handleRequestMachine_eq_jobWriteFault (s : Store) (c : Cache)
    (locationId jobId : String) (f : RequestFaults)
    (a : MachineStateDocument)
    (h1 : f.listFault = false)
    (h2 : List.find? (fun m => m.status == MachineStatus.AVAILABLE)
      (listMachinesAtLocation s locationId) = some a)
    (h3 : f.statusWriteFault = false)
    (h4 : f.jobWriteFault = true) :
    handleRequestMachine s c locationId jobId f =
      { plainOutcome ⟨HttpResponseCode.INTERNAL_SERVER_ERROR, none⟩
          (updateMachineStatus s a.machineId MachineStatus.AWAITING_DROPOFF)
          c with
        reads := listMachinesAtLocation s locationId,
        statusWrites := [⟨a.machineId,
          Option.map MachineStateDocument.status (getMachine s a.machineId),
          MachineStatus.AWAITING_DROPOFF⟩],
        storeCalls := 3 } := by
  simp [handleRequestMachine, h1, h2, h3, h4]

lemma handleRequestMachine_eq_rereadFault (s : Store) (c : Cache)
    (locationId jobId : String) (f : RequestFaults)
    (a : MachineStateDocument)
    (h1 : f.listFault = false)
    (h2 : List.find? (fun m => m.status == MachineStatus.AVAILABLE)
      (listMachinesAtLocation s locationId) = some a)
    (h3 : f.statusWriteFault = false)
    (h4 : f.jobWriteFault = false)
    (h5 : f.rereadFault = true) :
    handleRequestMachine s c locationId jobId f =
      { plainOutcome ⟨HttpResponseCode.INTERNAL_SERVER_ERROR, none⟩
          (updateMachineJobId
            (updateMachineStatus s a.machineId MachineStatus.AWAITING_DROPOFF)
            a.machineId jobId) c with
        reads := listMachinesAtLocation s locationId,
        statusWrites := [⟨a.machineId,
          Option.map MachineStateDocument.status (getMachine s a.machineId),
          MachineStatus.AWAITING_DROPOFF⟩],
        storeCalls := 4 } := by
  simp [handleRequestMachine, h1, h2, h3, h4, h5]

lemma handleRequestMachine_eq_ok (s : Store) (c : Cache)
    (locationId jobId : String) (f : RequestFaults)
    (a u : MachineStateDocument)
    (h1 : f.listFault = false)
    (h2 : List.find? (fun m => m.status == MachineStatus.AVAILABLE)
      (listMachinesAtLocation s locationId) = some a)
    (h3 : f.statusWriteFault = false)
    (h4 : f.jobWriteFault = false)
    (h5 : f.rereadFault = false)
    (h6 : getMachine (updateMachineJobId
      (updateMachineStatus s a.machineId MachineStatus.AWAITING_DROPOFF)
      a.machineId jobId) a.machineId = some u) :
    handleRequestMachine s c locationId jobId f =
      { resp := ⟨HttpResponseCode.OK, some u⟩,
        store := updateMachineJobId
          (updateMachineStatus s a.machineId MachineStatus.AWAITING_DROPOFF)
          a.machineId jobId,
        cache := cachePut c a.machineId u,
        reads := listMachinesAtLocation s locationId ++ [u],
        statusWrites := [⟨a.machineId,
          Option.map MachineStateDocument.status (getMachine s a.machineId),
          MachineStatus.AWAITING_DROPOFF⟩],
        storeCalls := 4, cacheGets := 0, cachePuts := 1, deviceCalls := 0 } := by
  simp [handleRequestMachine, h1, h2, h3, h4, h5, h6]

lemma handleRequestMachine_eq_rereadEmpty (s : Store) (c : Cache)
    (locationId jobId : String) (f : RequestFaults)
    (a : MachineStateDocument)
    (h1 : f.listFault = false)
    (h2 : List.find? (fun m => m.status == MachineStatus.AVAILABLE)
      (listMachinesAtLocation s locationId) = some a)
    (h3 : f.statusWriteFault = false)
    (h4 : f.jobWriteFault = false)
    (h5 : f.rereadFault = false)
    (h6 : getMachine (updateMachineJobId
      (updateMachineStatus s a.machineId MachineStatus.AWAITING_DROPOFF)
      a.machineId jobId) a.machineId = none) :
    handleRequestMachine s c locationId jobId f =
      { plainOutcome ⟨HttpResponseCode.INTERNAL_SERVER_ERROR, none⟩
          (updateMachineJobId
            (updateMachineStatus s a.machineId MachineStatus.AWAITING_DROPOFF)
            a.machineId jobId) c with
        reads := listMachinesAtLocation s locationId,
        statusWrites := [⟨a.machineId,
          Option.map MachineStateDocument.status (getMachine s a.machineId),
          MachineStatus.AWAITING_DROPOFF⟩],
        storeCalls := 4 } := by
  simp [handleRequestMachine, h1, h2, h3, h4, h5, h6]

lemma handleGetMachine_eq_hit (s : Store) (c : Cache) (machineId : String)
    (f : GetFaults) (r : MachineStateDocument)
    (h : cacheGet c machineId = some r) :
    handleGetMachine s c machineId f =
      { plainOutcome ⟨HttpResponseCode.OK, some r⟩ s c with
        cacheGets := 1 } := by
  simp [handleGetMachine, h]

lemma handleGetMachine_eq_readFault (s : Store) (c : Cache)
    (machineId : String) (f : GetFaults)
    (h1 : cacheGet c machineId = none) (h2 : f.readFault = true) :
    handleGetMachine s c machineId f =
      { plainOutcome ⟨HttpResponseCode.INTERNAL_SERVER_ERROR, none⟩ s c with
        cacheGets := 1, storeCalls := 1 } := by
  simp [handleGetMachine, h1, h2]

lemma handleGetMachine_eq_notFound (s : Store) (c : Cache)
    (machineId : String) (f : GetFaults)
    (h1 : cacheGet c machineId = none) (h2 : f.readFault = false)
    (h3 : getMachine s machineId = none) :
    handleGetMachine s c machineId f =
      { plainOutcome ⟨HttpResponseCode.NOT_FOUND, none⟩ s c with
        cacheGets := 1, storeCalls := 1 } := by
  simp [handleGetMachine, h1, h2, h3]

lemma handleGetMachine_eq_miss (s : Store) (c : Cache)
    (machineId : String) (f : GetFaults) (m : MachineStateDocument)
    (h1 : cacheGet c machineId = none) (h2 : f.readFault = false)
    (h3 : getMachine s machineId = some m) :
    handleGetMachine s c machineId f =
      { resp := ⟨HttpResponseCode.OK, some m⟩, store := s,
        cache := cachePut c machineId m, reads := [m], statusWrites := [],
        storeCalls := 1, cacheGets := 1, cachePuts := 1,
        deviceCalls := 0 } := by
  simp [handleGetMachine, h1, h2, h3]

lemma handleStartMachine_eq_readFault (s : Store) (c : Cache)
    (machineId : String) (f : StartFaults)
    (h : f.readFault = true) :
    handleStartMachine s c machineId f =
      startMachineCatch s c machineId [] [] 1 0
        f.classReadFault f.classWriteFault := by
  simp [handleStartMachine, h]

lemma handleStartMachine_eq_notFound (s : Store) (c : Cache)
    (machineId : String) (f : StartFaults)
    (h1 : f.readFault = false) (h2 : getMachine s machineId = none) :
    handleStartMachine s c machineId f =
      { plainOutcome ⟨HttpResponseCode.NOT_FOUND, none⟩ s c with
        storeCalls := 1 } := by
  simp [handleStartMachine, h1, h2]

lemma handleStartMachine_eq_badRequest (s : Store) (c : Cache)
    (machineId : String) (f : StartFaults) (m : MachineStateDocument)
    (h1 : f.readFault = false) (h2 : getMachine s machineId = some m)
    (h3 : m.status ≠ MachineStatus.AWAITING_DROPOFF) :
    handleStartMachine s c machineId f =
      { plainOutcome ⟨HttpResponseCode.BAD_REQUEST, some m⟩ s c with
        reads := [m], storeCalls := 1 } := by
  simp [handleStartMachine, h1, h2, h3]

lemma handleStartMachine_eq_transient (s : Store) (c : Cache)
    (machineId : String) (f : StartFaults) (m : MachineStateDocument)
    (h1 : f.readFault = false) (h2 : getMachine s machineId = some m)
    (h3 : m.status = MachineStatus.AWAITING_DROPOFF)
    (h4 : f.device = DeviceOutcome.transientFault) :
    handleStartMachine s c machineId f =
      startMachineCatch s c machineId [m] [] 1 1
        f.classReadFault f.classWriteFault := by
  simp [handleStartMachine, h1, h2, h3, h4]

lemma handleStartMachine_eq_hardware (s : Store) (c : Cache)
    (machineId : String) (f : StartFaults) (m : MachineStateDocument)
    (h1 : f.readFault = false) (h2 : getMachine s machineId = some m)
    (h3 : m.status = MachineStatus.AWAITING_DROPOFF)
    (h4 : f.device = DeviceOutcome.hardwareFault) :
    handleStartMachine s c machineId f =
      startMachineCatch (updateMachineStatus s machineId MachineStatus.ERROR)
        c machineId [m] [] 1 1 f.classReadFault f.classWriteFault := by
  simp [handleStartMachine, h1, h2, h3, h4]

lemma handleStartMachine_eq_runWriteFault (s : Store) (c : Cache)
    (machineId : String) (f : StartFaults) (m : MachineStateDocument)
    (h1 : f.readFault = false) (h2 : getMachine s machineId = some m)
    (h3 : m.status = MachineStatus.AWAITING_DROPOFF)
    (h4 : f.device = DeviceOutcome.ok) (h5 : f.runWriteFault = true) :
    handleStartMachine s c machineId f =
      startMachineCatch s c machineId [m] [] 2 1
        f.classReadFault f.classWriteFault := by
  simp [handleStartMachine, h1, h2, h3, h4, h5]

lemma handleStartMachine_eq_rereadFault (s : Store) (c : Cache)
    (machineId : String) (f : StartFaults) (m : MachineStateDocument)
    (h1 : f.readFault = false) (h2 : getMachine s machineId = some m)
    (h3 : m.status = MachineStatus.AWAITING_DROPOFF)
    (h4 : f.device = DeviceOutcome.ok) (h5 : f.runWriteFault = false)
    (h6 : f.rereadFault = true) :
    handleStartMachine s c machineId f =
      startMachineCatch (updateMachineStatus s machineId MachineStatus.RUNNING)
        c machineId [m]
        [⟨machineId,
          Option.map MachineStateDocument.status (getMachine s machineId),
          MachineStatus.RUNNING⟩] 3 1
        f.classReadFault f.classWriteFault := by
  simp [handleStartMachine, h1, h2, h3, h4, h5, h6]

lemma handleStartMachine_eq_ok (s : Store) (c : Cache)
    (machineId : String) (f : StartFaults) (m u : MachineStateDocument)
    (h1 : f.readFault = false) (h2 : getMachine s machineId = some m)
    (h3 : m.status = MachineStatus.AWAITING_DROPOFF)
    (h4 : f.device = DeviceOutcome.ok) (h5 : f.runWriteFault = false)
    (h6 : f.rereadFault = false)
    (h7 : getMachine (updateMachineStatus s machineId MachineStatus.RUNNING)
      machineId = some u) :
    handleStartMachine s c machineId f =
      { resp := ⟨HttpResponseCode.OK, some u⟩,
        store := updateMachineStatus s machineId MachineStatus.RUNNING,
        cache := cachePut c machineId u,
        reads := [m, u],
        statusWrites := [⟨machineId,
          Option.map MachineStateDocument.status (getMachine s machineId),
          MachineStatus.RUNNING⟩],
        storeCalls := 3, cacheGets := 0, cachePuts := 1,
        deviceCalls := 1 } := by
  simp [handleStartMachine, h1, h2, h3, h4, h5, h6, h7]

lemma handleStartMachine_eq_rereadEmpty (s : Store) (c : Cache)
    (machineId : String) (f : StartFaults) (m : MachineStateDocument)
    (h1 : f.readFault = false) (h2 : getMachine s machineId = some m)
    (h3 : m.status = MachineStatus.AWAITING_DROPOFF)
    (h4 : f.device = DeviceOutcome.ok) (h5 : f.runWriteFault = false)
    (h6 : f.rereadFault = false)
    (h7 : getMachine (updateMachineStatus s machineId MachineStatus.RUNNING)
      machineId = none) :
    handleStartMachine s c machineId f =
      { plainOutcome ⟨HttpResponseCode.INTERNAL_SERVER_ERROR, none⟩
          (updateMachineStatus s machineId MachineStatus.RUNNING) c with
        reads := [m],
        statusWrites := [⟨machineId,
          Option.map MachineStateDocument.status (getMachine s machineId),
          MachineStatus.RUNNING⟩],
        storeCalls := 3, deviceCalls := 1 } := by
  simp [handleStartMachine, h1, h2, h3, h4, h5, h6, h7]

/-- Claim C3: for every operation (RequestMachine, GetMachine,
StartMachine) and every pre-state with unique machine ids, every status
value the workflow writes to the Store either leaves the stored status
unchanged (the idempotent ERROR re-assert) or follows one of the edges
AVAILABLE to AWAITING_DROPOFF (reservation), AWAITING_DROPOFF to RUNNING
(successful start), AWAITING_DROPOFF to ERROR (hardware fault during
start); no write performed by the workflow targets AVAILABLE. -/
theorem workflow_status_writes_legal
    (s : Store) (c : Cache) (locationId jobId getId startId : String)
    (fr : RequestFaults) (fg : GetFaults) (fs : StartFaults)
    (hnd : (List.map MachineStateDocument.machineId s).Nodup) :
    (∀ w ∈ (handleRequestMachine s c locationId jobId fr).statusWrites,
      legalWrite w) ∧
    (∀ w ∈ (handleGetMachine s c getId fg).statusWrites, legalWrite w) ∧
    (∀ w ∈ (handleStartMachine s c startId fs).statusWrites, legalWrite w) := by
  refine ⟨?_, ?_, ?_⟩
  · cases hlf : fr.listFault with
    | true =>
        rw [handleRequestMachine_eq_listFault s c locationId jobId fr hlf]
        simp [plainOutcome]
    | false =>
        rcases hfind : List.find? (fun m => m.status == MachineStatus.AVAILABLE)
            (listMachinesAtLocation s locationId) with _ | a
        · rw [handleRequestMachine_eq_notFound s c locationId jobId fr hlf
            hfind]
          simp [plainOutcome]
        · have hmem : a ∈ s := by
            have h0 := List.mem_of_find?_eq_some hfind
            unfold listMachinesAtLocation at h0
            exact (List.mem_filter.mp h0).1
          have hav : a.status = MachineStatus.AVAILABLE := by
            have hb := List.find?_some hfind
            simp only [beq_iff_eq] at hb
            exact hb
          have hget : getMachine s a.machineId = some a :=
            getMachine_of_mem_nodup hmem hnd
          have hlegal : legalWrite
              ⟨a.machineId,
               Option.map MachineStateDocument.status
                 (getMachine s a.machineId),
               MachineStatus.AWAITING_DROPOFF⟩ := by
            refine ⟨by simp, Or.inr (Or.inl ⟨?_, rfl⟩)⟩
            rw [hget]
            simp [hav]
          cases hsw : fr.statusWriteFault with
          | true =>
              rw [handleRequestMachine_eq_statusWriteFault s c locationId
                jobId fr a hlf hfind hsw]
              simp [plainOutcome]
          | false =>
              cases hjw : fr.jobWriteFault with
              | true =>
                  rw [handleRequestMachine_eq_jobWriteFault s c locationId
                    jobId fr a hlf hfind hsw hjw]
                  simpa [plainOutcome] using hlegal
              | false =>
                  cases hrr : fr.rereadFault with
                  | true =>
                      rw [handleRequestMachine_eq_rereadFault s c locationId
                        jobId fr a hlf hfind hsw hjw hrr]
                      simpa [plainOutcome] using hlegal
                  | false =>
                      rcases hread : getMachine (updateMachineJobId
                          (updateMachineStatus s a.machineId
                            MachineStatus.AWAITING_DROPOFF)
                          a.machineId jobId) a.machineId with _ | u
                      · rw [handleRequestMachine_eq_rereadEmpty s c
                          locationId jobId fr a hlf hfind hsw hjw hrr hread]
                        simpa [plainOutcome] using hlegal
                      · rw [handleRequestMachine_eq_ok s c locationId jobId
                          fr a u hlf hfind hsw hjw hrr hread]
                        simpa using hlegal
  · rcases hhit : cacheGet c getId with _ | r
    · cases hgf : fg.readFault with
      | true =>
          rw [handleGetMachine_eq_readFault s c getId fg hhit hgf]
          simp [plainOutcome]
      | false =>
          rcases hread : getMachine s getId with _ | m
          · rw [handleGetMachine_eq_notFound s c getId fg hhit hgf hread]
            simp [plainOutcome]
          · rw [handleGetMachine_eq_miss s c getId fg m hhit hgf hread]
            simp
    · rw [handleGetMachine_eq_hit s c getId fg r hhit]
      simp [plainOutcome]
  · cases hrf : fs.readFault with
    | true =>
        rw [handleStartMachine_eq_readFault s c startId fs hrf]
        exact startMachineCatch_writes_legal _ _ _ _ _ _ _ _ _ (by simp)
    | false =>
        rcases hread : getMachine s startId with _ | m
        · rw [handleStartMachine_eq_notFound s c startId fs hrf hread]
          simp [plainOutcome]
        · by_cases hstat : m.status = MachineStatus.AWAITING_DROPOFF
          case neg =>
              rw [handleStartMachine_eq_badRequest s c startId fs m hrf hread
                hstat]
              simp [plainOutcome]
          case pos =>
              have hlegal : legalWrite
                  ⟨startId,
                   Option.map MachineStateDocument.status
                     (getMachine s startId),
                   MachineStatus.RUNNING⟩ := by
                refine ⟨by simp, Or.inr (Or.inr ⟨?_, Or.inl rfl⟩)⟩
                rw [hread]
                simp [hstat]
              cases hdev : fs.device with
              | ok =>
                  cases hrw : fs.runWriteFault with
                  | true =>
                      rw [handleStartMachine_eq_runWriteFault s c startId fs
                        m hrf hread hstat hdev hrw]
                      exact startMachineCatch_writes_legal _ _ _ _ _ _ _ _ _
                        (by simp)
                  | false =>
                      cases hrr : fs.rereadFault with
                      | true =>
                          rw [handleStartMachine_eq_rereadFault s c startId
                            fs m hrf hread hstat hdev hrw hrr]
                          exact startMachineCatch_writes_legal _ _ _ _ _ _ _
                            _ _ (by simpa using hlegal)
                      | false =>
                          rcases hread2 : getMachine (updateMachineStatus s
                              startId MachineStatus.RUNNING) startId
                            with _ | u
                          · rw [handleStartMachine_eq_rereadEmpty s c startId
                              fs m hrf hread hstat hdev hrw hrr hread2]
                            simpa [plainOutcome] using hlegal
                          · rw [handleStartMachine_eq_ok s c startId fs m u
                              hrf hread hstat hdev hrw hrr hread2]
                            simpa using hlegal
              | transientFault =>
                  rw [handleStartMachine_eq_transient s c startId fs m hrf
                    hread hstat hdev]
                  exact startMachineCatch_writes_legal _ _ _ _ _ _ _ _ _
                    (by simp)
              | hardwareFault =>
                  rw [handleStartMachine_eq_hardware s c startId fs m hrf
                    hread hstat hdev]
                  exact startMachineCatch_writes_legal _ _ _ _ _ _ _ _ _
                    (by simp)

/-- Claim C3 witness: a reservation on a one-machine store. -/
theorem workflow_status_writes_legal_witness :
    (List.map MachineStateDocument.machineId
      [⟨"m1", "L1", MachineStatus.AVAILABLE, none⟩]).Nodup ∧
    (∀ w ∈ (handleRequestMachine
        [⟨"m1", "L1", MachineStatus.AVAILABLE, none⟩] [] "L1" "J1"
        ⟨false, false, false, false⟩).statusWrites, legalWrite w) :=
  ⟨by decide,
    (workflow_status_writes_legal
      [⟨"m1", "L1", MachineStatus.AVAILABLE, none⟩] [] "L1" "J1" "m1" "m1"
      ⟨false, false, false, false⟩ ⟨false⟩
      ⟨false, DeviceOutcome.ok, false, false, false, false⟩
      (by decide)).1⟩

/-- Claim C4: after every completed operation (RequestMachine, GetMachine,
StartMachine), every cache entry present for a machine id is either
exactly the entry the cache held before the operation or the most recent
machine record the operation itself read from the Store for that id; no
operation leaves a cache entry holding a record the workflow has not
observed from the Store. -/
theorem workflow_cache_coherent
    (s : Store) (c : Cache) (locationId jobId getId startId : String)
    (fr : RequestFaults) (fg : GetFaults) (fs : StartFaults) :
    cacheCoherent c (handleRequestMachine s c locationId jobId fr) ∧
    cacheCoherent c (handleGetMachine s c getId fg) ∧
    cacheCoherent c (handleStartMachine s c startId fs) := by
  refine ⟨?_, ?_, ?_⟩
  · cases hlf : fr.listFault with
    | true =>
        rw [handleRequestMachine_eq_listFault s c locationId jobId fr hlf]
        exact cacheCoherent_of_eq _ _ rfl
    | false =>
        rcases hfind : List.find? (fun m => m.status == MachineStatus.AVAILABLE)
            (listMachinesAtLocation s locationId) with _ | a
        · rw [handleRequestMachine_eq_notFound s c locationId jobId fr hlf
            hfind]
          exact cacheCoherent_of_eq _ _ rfl
        · cases hsw : fr.statusWriteFault with
          | true =>
              rw [handleRequestMachine_eq_statusWriteFault s c locationId
                jobId fr a hlf hfind hsw]
              exact cacheCoherent_of_eq _ _ rfl
          | false =>
              cases hjw : fr.jobWriteFault with
              | true =>
                  rw [handleRequestMachine_eq_jobWriteFault s c locationId
                    jobId fr a hlf hfind hsw hjw]
                  exact cacheCoherent_of_eq _ _ rfl
              | false =>
                  cases hrr : fr.rereadFault with
                  | true =>
                      rw [handleRequestMachine_eq_rereadFault s c locationId
                        jobId fr a hlf hfind hsw hjw hrr]
                      exact cacheCoherent_of_eq _ _ rfl
                  | false =>
                      rcases hread : getMachine (updateMachineJobId
                          (updateMachineStatus s a.machineId
                            MachineStatus.AWAITING_DROPOFF)
                          a.machineId jobId) a.machineId with _ | u
                      · rw [handleRequestMachine_eq_rereadEmpty s c
                          locationId jobId fr a hlf hfind hsw hjw hrr hread]
                        exact cacheCoherent_of_eq _ _ rfl
                      · rw [handleRequestMachine_eq_ok s c locationId jobId
                          fr a u hlf hfind hsw hjw hrr hread]
                        exact cacheCoherent_of_put c _ _ u rfl
                          (getMachine_eq_some_machineId hread)
                          (lastReadFor_append_self _ u _
                            (getMachine_eq_some_machineId hread))
  · rcases hhit : cacheGet c getId with _ | r
    · cases hgf : fg.readFault with
      | true =>
          rw [handleGetMachine_eq_readFault s c getId fg hhit hgf]
          exact cacheCoherent_of_eq _ _ rfl
      | false =>
          rcases hread : getMachine s getId with _ | m
          · rw [handleGetMachine_eq_notFound s c getId fg hhit hgf hread]
            exact cacheCoherent_of_eq _ _ rfl
          · rw [handleGetMachine_eq_miss s c getId fg m hhit hgf hread]
            exact cacheCoherent_of_put c _ _ m rfl
              (getMachine_eq_some_machineId hread)
              (lastReadFor_append_self [] m _
                (getMachine_eq_some_machineId hread))
    · rw [handleGetMachine_eq_hit s c getId fg r hhit]
      exact cacheCoherent_of_eq _ _ rfl
  · cases hrf : fs.readFault with
    | true =>
        rw [handleStartMachine_eq_readFault s c startId fs hrf]
        exact startMachineCatch_cacheCoherent _ _ _ _ _ _ _ _ _
    | false =>
        rcases hread : getMachine s startId with _ | m
        · rw [handleStartMachine_eq_notFound s c startId fs hrf hread]
          exact cacheCoherent_of_eq _ _ rfl
        · by_cases hstat : m.status = MachineStatus.AWAITING_DROPOFF
          case neg =>
              rw [handleStartMachine_eq_badRequest s c startId fs m hrf hread
                hstat]
              exact cacheCoherent_of_eq _ _ rfl
          case pos =>
              cases hdev : fs.device with
              | ok =>
                  cases hrw : fs.runWriteFault with
                  | true =>
                      rw [handleStartMachine_eq_runWriteFault s c startId fs
                        m hrf hread hstat hdev hrw]
                      exact startMachineCatch_cacheCoherent _ _ _ _ _ _ _ _ _
                  | false =>
                      cases hrr : fs.rereadFault with
                      | true =>
                          rw [handleStartMachine_eq_rereadFault s c startId
                            fs m hrf hread hstat hdev hrw hrr]
                          exact startMachineCatch_cacheCoherent _ _ _ _ _ _ _
                            _ _
                      | false =>
                          rcases hread2 : getMachine (updateMachineStatus s
                              startId MachineStatus.RUNNING) startId
                            with _ | u
                          · rw [handleStartMachine_eq_rereadEmpty s c startId
                              fs m hrf hread hstat hdev hrw hrr hread2]
                            exact cacheCoherent_of_eq _ _ rfl
                          · rw [handleStartMachine_eq_ok s c startId fs m u
                              hrf hread hstat hdev hrw hrr hread2]
                            exact cacheCoherent_of_put c _ _ u rfl
                              (getMachine_eq_some_machineId hread2)
                              (lastReadFor_append_self [m] u _
                                (getMachine_eq_some_machineId hread2))
              | transientFault =>
                  rw [handleStartMachine_eq_transient s c startId fs m hrf
                    hread hstat hdev]
                  exact startMachineCatch_cacheCoherent _ _ _ _ _ _ _ _ _
              | hardwareFault =>
                  rw [handleStartMachine_eq_hardware s c startId fs m hrf
                    hread hstat hdev]
                  exact startMachineCatch_cacheCoherent _ _ _ _ _ _ _ _ _
